import Mathlib

/-!
Verification development for the smart-zk repository.

Shallow embedding of the protocol core: MPC parameter agreement
(src/mpc_setup.py, src/authority.py), the commitment codec
(src/zksnark/utils.py), the key-issuance server (src/server_authority.py),
the reader client (src/reader.py) and the ledger transaction sender
(src/block_int.py).  External collaborators (pairing-group arithmetic,
sha256/sha512, snarkjs, IPFS, sqlite, web3) are modelled as opaque
parameters of the functions that call them; everything the source
computes itself is translated directly.
-/

/-! ## MPC setup (src/mpc_setup.py) -/

/-- Embeds `mpc_setup.generateParameters`.  Group elements are modelled as
natural numbers, the pairing-group product as multiplication.  The Python
loop runs over `range(len(com1))` and indexes both `com1` and `com2`; when
`com2` is shorter an `IndexError` escapes, modelled as `none`.  The
`hashes1`/`hashes2` arguments are accepted and never used, exactly as in
the source ("MPC bypass"). -/
def generateParameters (hashes1 hashes2 : List String) (com1 com2 : List Nat) :
    Option (Nat × Nat) :=
  if com1.length ≤ com2.length then
    some (com1.foldl (· * ·) 1, (com2.take com1.length).foldl (· * ·) 1)
  else
    none

/-- The aggregation step as §4.1 of the spec requires it: recompute each
authority's commitment from its revealed elements (via the commitment
function `commitFn`, abstracting `mpc_setup.commit`'s sha256) and reject
the round on any mismatch; only on full agreement combine the revealed
elements.  Spec-side definition, for comparison with `generateParameters`. -/
def generateParametersSpec (commitFn : Nat → String)
    (hashes1 hashes2 : List String) (com1 com2 : List Nat) :
    Option (Nat × Nat) :=
  if hashes1.length == com1.length && hashes2.length == com2.length
      && (com1.zip hashes1).all (fun p => commitFn p.1 == p.2)
      && (com2.zip hashes2).all (fun p => commitFn p.1 == p.2) then
    generateParameters hashes1 hashes2 com1 com2
  else
    none

/-- C1: the parameter-aggregation step is required to recompute each
authority's commitment from its revealed elements and reject the round on
any mismatch.  The code does not: `generateParameters` ignores the
published hashes entirely and aggregates unconditionally, so a round whose
revealed elements do not hash to the prior commitments still produces
parameters, where the spec-side checked aggregation rejects it. -/
theorem mpc_aggregation_ignores_commitments :
    (∀ h1 h2 g1 g2 : List String, ∀ c1 c2 : List Nat,
        generateParameters h1 h2 c1 c2 = generateParameters g1 g2 c1 c2) ∧
    generateParameters ["deadbeef"] ["cafe"] [5] [7] = some (5, 7) ∧
    generateParametersSpec (fun g => toString g) ["deadbeef"] ["cafe"] [5] [7]
      = none ∧
    toString (5 : Nat) ≠ "deadbeef" := by
  refine ⟨fun h1 h2 g1 g2 c1 c2 => rfl, by decide, by decide, by decide⟩

/-! ## Commitment codec (src/zksnark/utils.py) -/

/-- A Python value passed to `compute_pedersen_hash`: either a string
(modelled as its list of character codes) or an integer.  All values fed
through the attribute pipeline are non-negative, so `Nat` is used. -/
inductive PyVal where
  | pstr (s : List Nat)
  | pint (n : Nat)
deriving DecidableEq, Repr

/-- Embeds the string branch of `compute_pedersen_hash` (utils.py line 38):
`sum(ord(c) * (256 ** i) for i, c in enumerate(v[:8]))` — only the first
eight characters feed the encoding. -/
def str_to_int8 (s : List Nat) : Nat :=
  ((s.take 8).enum).foldl (fun acc ic => acc + ic.2 * 256 ^ ic.1) 0

/-- Embeds the per-value conversion inside `compute_pedersen_hash`
(utils.py lines 35-41): strings go through the first-eight-characters
encoding, everything else through `int`. -/
def toIntVal : PyVal → Nat
  | .pstr s => str_to_int8 s
  | .pint n => n

/-- Embeds `compute_pedersen_hash` (utils.py lines 27-54): the weighted sum
`Σ val_i * 31 ^ i`, where `powers_of_31 = [1, 31, 961, 29791, 923521]` are
exactly `31 ^ 0 .. 31 ^ 4` and larger indices use `31 ** i` directly.  No
modulo is applied, matching the source. -/
def compute_pedersen_hash (values : List PyVal) : Nat :=
  (values.enum).foldl (fun acc iv => acc + toIntVal iv.2 * 31 ^ iv.1) 0

/-- Embeds Python `str.isdigit` for ASCII-code strings as used by the
certifier/reader guard (attribute_certifier.py line 73, reader.py
line 181): non-empty and all characters in `'0'..'9'`. -/
def pyIsdigit (s : List Nat) : Bool :=
  !s.isEmpty && s.all (fun c => 48 ≤ c && c ≤ 57)

/-- Embeds Python `int(...)` on a digit string (the taken branch of the
certifier/reader conversion when `attr_value.isdigit()`). -/
def pyIntOfDigits (s : List Nat) : Nat :=
  s.foldl (fun acc c => acc * 10 + (c - 48)) 0

/-- Embeds `attr_value_numeric` as computed in attribute_certifier.py
lines 73-77 and reader.py lines 181-185: non-digit strings use the same
first-eight-characters encoding as `compute_pedersen_hash`; digit strings
are parsed as integers. -/
def attr_value_numeric (s : List Nat) : Nat :=
  if pyIsdigit s then pyIntOfDigits s else str_to_int8 s

/-- Unfolding of the commitment of a five-field attribute tuple
`[secret, value, authorityId, attrType, expiry]`. -/
theorem compute_pedersen_hash_tuple (a b c d e : Nat) :
    compute_pedersen_hash [.pint a, .pint b, .pint c, .pint d, .pint e] =
      a + b * 31 + c * 961 + d * 29791 + e * 923521 := by
  simp [compute_pedersen_hash, List.enum, toIntVal, List.foldl]

/-- C3 (counterexample): two distinct valid attribute tuples with identical
commitments.  Secrets 32 and 1 (both in the certifier's range
`randint(1, 2**64)`), numeric values 5 and 6, same authority 1, same
attribute type 0, same expiry 20260101: `32 + 5*31 = 1 + 6*31 = 187`, and
the remaining weighted terms coincide, so the claimed injectivity on
distinct tuples fails. -/
theorem commitment_collision_counterexample :
    compute_pedersen_hash
        [.pint 32, .pint 5, .pint 1, .pint 0, .pint 20260101] =
      compute_pedersen_hash
        [.pint 1, .pint 6, .pint 1, .pint 0, .pint 20260101] ∧
    ([PyVal.pint 32, .pint 5, .pint 1, .pint 0, .pint 20260101] ≠
      [PyVal.pint 1, .pint 6, .pint 1, .pint 0, .pint 20260101]) := by
  exact ⟨by decide, by decide⟩

/-- C3 (amended): the commitment function is deterministic (equal tuples
give equal commitments) and injective in the secret field when the other
four fields are held fixed, but it is not injective on all distinct
tuples: distinct valid tuples can collide. -/
theorem commitment_deterministic_not_injective :
    (∀ xs ys : List PyVal, xs = ys →
        compute_pedersen_hash xs = compute_pedersen_hash ys) ∧
    (∀ s1 s2 v a t e : Nat,
        compute_pedersen_hash [.pint s1, .pint v, .pint a, .pint t, .pint e] =
          compute_pedersen_hash [.pint s2, .pint v, .pint a, .pint t, .pint e] →
        s1 = s2) ∧
    ¬ (∀ xs ys : List PyVal,
        compute_pedersen_hash xs = compute_pedersen_hash ys → xs = ys) := by
  refine ⟨fun xs ys h => by rw [h], fun s1 s2 v a t e h => ?_, fun h => ?_⟩
  · rw [compute_pedersen_hash_tuple, compute_pedersen_hash_tuple] at h
    omega
  · have := h [.pint 32, .pint 5, .pint 1, .pint 0, .pint 20260101]
      [.pint 1, .pint 6, .pint 1, .pint 0, .pint 20260101] (by decide)
    exact absurd this (by decide)

/-- C3 (witness): the injectivity-in-the-secret conjunct applied at a
concrete tuple. -/
theorem commitment_secret_injective_witness : (7 : Nat) = 7 :=
  commitment_deterministic_not_injective.2.1 7 7 5 1 1 20260101 rfl

/-- C9: the commitment/encoding function maps a string attribute value
using only its first eight characters: strings agreeing on their first
eight characters get the same numeric encoding, hence (with equal
remaining tuple fields) the same commitment; the certifier/reader
pre-conversion agrees on its non-digit branch. -/
theorem string_encoding_first_eight (s1 s2 : List Nat)
    (h : s1.take 8 = s2.take 8) :
    str_to_int8 s1 = str_to_int8 s2 ∧
    (∀ secret auth ty exp : Nat,
        compute_pedersen_hash
            [.pint secret, .pstr s1, .pint auth, .pint ty, .pint exp] =
          compute_pedersen_hash
            [.pint secret, .pstr s2, .pint auth, .pint ty, .pint exp]) ∧
    (pyIsdigit s1 = false → pyIsdigit s2 = false →
        attr_value_numeric s1 = attr_value_numeric s2) := by
  have henc : str_to_int8 s1 = str_to_int8 s2 := by
    unfold str_to_int8
    rw [h]
  refine ⟨henc, fun secret auth ty exp => ?_, fun h1 h2 => ?_⟩
  · simp [compute_pedersen_hash, List.enum, toIntVal, List.foldl, henc]
  · simp [attr_value_numeric, h1, h2, henc]

/-- C9 (witness): the character codes of `"MANUFACTURER"` and
`"MANUFACTURING"` share their first eight characters, so their encodings
and commitments coincide. -/
theorem string_encoding_first_eight_witness :
    str_to_int8 [77, 65, 78, 85, 70, 65, 67, 84, 85, 82, 69, 82] =
      str_to_int8 [77, 65, 78, 85, 70, 65, 67, 84, 85, 82, 73, 78, 71] ∧
    compute_pedersen_hash
        [.pint 3, .pstr [77, 65, 78, 85, 70, 65, 67, 84, 85, 82, 69, 82],
          .pint 1, .pint 0, .pint 20260101] =
      compute_pedersen_hash
        [.pint 3, .pstr [77, 65, 78, 85, 70, 65, 67, 84, 85, 82, 73, 78, 71],
          .pint 1, .pint 0, .pint 20260101] := by
  have h := string_encoding_first_eight
    [77, 65, 78, 85, 70, 65, 67, 84, 85, 82, 69, 82]
    [77, 65, 78, 85, 70, 65, 67, 84, 85, 82, 73, 78, 71] (by decide)
  exact ⟨h.1, h.2.1 3 1 0 20260101⟩

/-! ## Key-issuance server (src/server_authority.py) -/

/-- Embeds the Python expression `public_signals[-2]`
(server_authority.py line 86): the second-to-last element, an
`IndexError` (modelled as `none`) when fewer than two signals exist. -/
def signalsAuthorityId (ps : List Int) : Option Int :=
  if h : 2 ≤ ps.length then some (ps.get ⟨ps.length - 2, by omega⟩)
  else none

/-- Embeds `AuthorityServer.verify_attribute_proof` (server_authority.py
lines 72-108).  `K` is `self.authority_number`, `verifierResult` the value
returned by the external snarkjs verifier
(`self.zk_verifier.verify_attribute_proof`).  Any exception inside the
`try` block (in particular the `IndexError` from `public_signals[-2]`)
yields `False`; the sqlite logging has no effect on the result. -/
def verify_attribute_proof (zk_enabled : Bool) (K : Int) (ps : List Int)
    (verifierResult : Bool) : Bool :=
  if !zk_enabled then false
  else
    match signalsAuthorityId ps with
    | none => false
    | some aid => if aid ≠ K then false else verifierResult

/-- The responses the ZK branch of `AuthorityServer.handle_client` can
send (server_authority.py lines 131-149). -/
inductive ZkResponse where
  | partialKey
  | errInvalidProof
  | errInvalidJson
  | errMissingParams
deriving DecidableEq, Repr

/-- Embeds the ZK branch of `AuthorityServer.handle_client`
(server_authority.py lines 131-149): `nParts` is `len(message)`, `parsed`
the result of `json.loads` on the proof and public signals (`none` models
a `JSONDecodeError`).  A key fragment is sent only when
`verify_attribute_proof` returns true. -/
def handle_zk_message (nParts : Nat) (parsed : Option (List Int))
    (zk_enabled : Bool) (K : Int) (verifierResult : Bool) : ZkResponse :=
  if 6 ≤ nParts then
    match parsed with
    | some ps =>
        if verify_attribute_proof zk_enabled K ps verifierResult then
          .partialKey
        else
          .errInvalidProof
    | none => .errInvalidJson
  else
    .errMissingParams

/-- C2: a `KeyIssuanceServer` configured as authority `K` rejects any ZK
key request whose public `authorityId` differs from `K` — the proof is
never even passed to the verifier — and sends no key fragment, even when
the external verifier would return true. -/
theorem zk_request_rejects_foreign_authority (zk : Bool) (nParts : Nat)
    (ps : List Int) (K a : Int) (verifierResult : Bool)
    (hsig : signalsAuthorityId ps = some a) (hne : a ≠ K) :
    verify_attribute_proof zk K ps verifierResult = false ∧
    handle_zk_message nParts (some ps) zk K verifierResult ≠ .partialKey := by
  have hv : verify_attribute_proof zk K ps verifierResult = false := by
    unfold verify_attribute_proof
    cases zk <;> simp [hsig, hne]
  refine ⟨hv, ?_⟩
  unfold handle_zk_message
  by_cases h6 : 6 ≤ nParts <;> simp [h6, hv]

/-- C2 (witness): with public signals `[99, 2, 1]` the carried authority id
is `2`; a server configured as authority `1` rejects even with a verifier
that returns true. -/
theorem zk_request_rejects_foreign_authority_witness :
    verify_attribute_proof true 1 [99, 2, 1] true = false ∧
    handle_zk_message 6 (some [99, 2, 1]) true 1 true ≠ .partialKey :=
  zk_request_rejects_foreign_authority true 6 [99, 2, 1] 1 2 true
    (by decide) (by decide)

/-- C10: with zkSNARK verification disabled (`--disable-zk` or a failed
verifier initialisation), `verify_attribute_proof` returns false for every
request, so the ZK branch of `handle_client` sends an error response and
never issues a key fragment. -/
theorem zk_disabled_never_issues_key (K : Int) (ps : List Int)
    (verifierResult : Bool) (nParts : Nat) (parsed : Option (List Int)) :
    verify_attribute_proof false K ps verifierResult = false ∧
    handle_zk_message nParts parsed false K verifierResult ≠ .partialKey := by
  refine ⟨rfl, ?_⟩
  unfold handle_zk_message
  by_cases h6 : 6 ≤ nParts <;> cases parsed <;>
    simp [h6, verify_attribute_proof]

/-- A row of the `handshake_numbers` table: process instance, reader
address, and the challenge number stored as a string. -/
structure HsRow where
  pid : String
  addr : String
  nonce : String
deriving DecidableEq, Repr

/-- Embeds `AuthorityServer.generate_number_to_sign` (server_authority.py
lines 40-49).  The freshly drawn random number is a parameter (`nonce`).
Modelled from the spec: the `handshake_numbers` table itself is created
outside src/; per the spec's `HandshakeChallenge` map
`{processInstance, readerId} → nonce`, the `INSERT OR IGNORE` keeps an
existing row for the same (pid, addr) and inserts otherwise.  The drawn
number is returned to the client in both cases. -/
def generate_number_to_sign (rows : List HsRow) (pid addr nonce : String) :
    String × List HsRow :=
  if rows.any (fun r => r.pid == pid && r.addr == addr) then
    (nonce, rows)
  else
    (nonce, rows ++ [⟨pid, addr, nonce⟩])

/-- Embeds `AuthorityServer.check_handshake` (server_authority.py
lines 52-69).  `sigValid` abstracts the external signature check (sha512
of the stored number against `signature ^ e mod n` from the IPFS-resolved
public key, including the address check on the key file).  The SELECT on
an empty result set raises `IndexError` (`none`); in every case the table
is only read, never written. -/
def check_handshake (rows : List HsRow) (pid addr : String)
    (sigValid : HsRow → Bool) : Option Bool × List HsRow :=
  match rows.filter (fun r => r.pid == pid && r.addr == addr) with
  | [] => (none, rows)
  | r :: _ => (some (sigValid r), rows)

/-- C4 (counterexample): the stored challenge nonce is not single-use.
After a successful verification the nonce row is still in the server's
state, and a second verification against the very same nonce succeeds
again — the claim that verification removes the nonce fails. -/
theorem handshake_nonce_not_consumed_counterexample :
    check_handshake [⟨"p", "r", "42"⟩] "p" "r" (fun _ => true) =
      (some true, [⟨"p", "r", "42"⟩]) ∧
    (check_handshake
        (check_handshake [⟨"p", "r", "42"⟩] "p" "r" (fun _ => true)).2
        "p" "r" (fun _ => true)).1 = some true ∧
    (check_handshake [⟨"p", "r", "42"⟩] "p" "r" (fun _ => false)).2 =
      [⟨"p", "r", "42"⟩] := by
  exact ⟨rfl, rfl, rfl⟩

/-- C4 (amended): the challenge nonce is created on the start-handshake
request (when none is stored for the pair), but signature verification
never consumes it: `check_handshake` leaves the stored rows unchanged
whether verification succeeds, fails, or finds no nonce, so the same
nonce remains available for further verifications. -/
theorem handshake_nonce_persists (rows : List HsRow) (pid addr : String)
    (sigValid : HsRow → Bool) :
    (check_handshake rows pid addr sigValid).2 = rows ∧
    (∀ nonce : String,
        rows.all (fun r => !(r.pid == pid && r.addr == addr)) = true →
        (⟨pid, addr, nonce⟩ : HsRow) ∈
          (generate_number_to_sign rows pid addr nonce).2) := by
  constructor
  · unfold check_handshake
    cases rows.filter (fun r => r.pid == pid && r.addr == addr) <;> rfl
  · intro nonce habsent
    unfold generate_number_to_sign
    have hany : rows.any (fun r => r.pid == pid && r.addr == addr) = false := by
      rw [List.any_eq_false]
      intro r hr
      have := (List.all_eq_true.mp habsent) r hr
      simp only [Bool.not_eq_true'] at this
      simp [this]
    simp [hany]

/-- C4 (witness): the persistence theorem applied at a concrete state and
at a concrete empty-state insertion. -/
theorem handshake_nonce_persists_witness :
    (check_handshake [⟨"p", "r", "42"⟩] "q" "r" (fun _ => true)).2 =
      [(⟨"p", "r", "42"⟩ : HsRow)] ∧
    (⟨"q", "r", "7"⟩ : HsRow) ∈
      (generate_number_to_sign [⟨"p", "r", "42"⟩] "q" "r" "7").2 :=
  ⟨(handshake_nonce_persists [⟨"p", "r", "42"⟩] "q" "r" (fun _ => true)).1,
    (handshake_nonce_persists [⟨"p", "r", "42"⟩] "q" "r" (fun _ => true)).2
      "7" (by decide)⟩

/-! ## Ledger transaction sender (src/block_int.py) -/

/-- Outcome of `__send_txt__` within a given amount of fuel. -/
inductive SendOutcome where
  | sent (h : Nat)
  | raised
  | stillRetrying
deriving DecidableEq, Repr

/-- Embeds `block_int.__send_txt__` (block_int.py lines 418-428).
`send k` is the outcome of the k-th `web3.eth.send_raw_transaction`
attempt (`none` = exception), `answerYes k` the operator's reply to the
k-th `input("Do you want to try again (y/n)?")` prompt.  The Python
function recurses with no bound; the embedding adds explicit fuel, with
`stillRetrying` marking runs the fuel cannot finish. -/
def send_txt (send : Nat → Option Nat) (answerYes : Nat → Bool) :
    Nat → Nat → SendOutcome
  | 0, _ => .stillRetrying
  | fuel + 1, attempt =>
    match send attempt with
    | some h => .sent h
    | none =>
        if answerYes attempt then send_txt send answerYes fuel (attempt + 1)
        else .raised

/-- C5: sending a ledger transaction is claimed to retry a bounded number
of times with a hard cap and no interactive confirmation.  The code
instead prompts the operator on every failure and recurses: while the
transaction keeps failing and the operator keeps answering yes, no amount
of fuel reaches a terminal outcome (no cap exists), and the fatal error
arises only from the interactive answer no. -/
theorem send_txt_unbounded_interactive_retry :
    (∀ fuel attempt : Nat,
        send_txt (fun _ => none) (fun _ => true) fuel attempt =
          .stillRetrying) ∧
    (∀ fuel attempt : Nat,
        send_txt (fun _ => none) (fun _ => false) (fuel + 1) attempt =
          .raised) ∧
    send_txt (fun _ => none) (fun _ => true) 3 0 ≠
      send_txt (fun _ => none) (fun _ => false) 3 0 := by
  refine ⟨?_, ?_, by decide⟩
  · intro fuel
    induction fuel with
    | zero => intro attempt; rfl
    | succ n ih => intro attempt; simpa [send_txt] using ih (attempt + 1)
  · intro fuel attempt
    simp [send_txt]


/-! ## Reader client (src/reader.py) -/

/-- Outcome of a Python call that either completes or raises. -/
inductive PyResult where
  | ok
  | raised (msg : String)
deriving DecidableEq, Repr

/-- The ciphertext metadata read from the IPFS-retrieved record
(reader.py lines 384-386). -/
structure CtMeta where
  pid : Int
  mid : Int
  sender : String
deriving DecidableEq, Repr

/-- One entry of the ciphertext header (a slice): its identifier plus the
opaque payload handed to `actual_decryption`. -/
structure CtSlice where
  slice_id : Int
  payload : String
deriving DecidableEq, Repr

/-- Result of the metadata/slice verification tail of `reader.start`
(reader.py lines 381-413): `attempted` lists the slices handed to
`actual_decryption` (only such a call can write an output file), `result`
the overall outcome (`raised` models the propagated exception). -/
structure FlowResult where
  attempted : List CtSlice
  result : PyResult
deriving DecidableEq, Repr

/-- The message of the `RuntimeError` raised by `reader.start` when
nothing was decrypted (reader.py line 411). -/
def decryptionErrorMsg : String :=
  "Decryption error: Please check message_id/slice_id or metadata consistency."

/-- Embeds the decryption tail of `reader.start` (reader.py
lines 381-413).  `dec` abstracts `actual_decryption` (completed run or
raised exception); metadata are compared for exact equality; with exactly
one slice it is decrypted directly, with several only the first slice
whose `Slice_id` equals the requested one, and with no match (or no
slices, or a metadata mismatch) a `RuntimeError` is raised with no slice
ever handed to `actual_decryption`. -/
def reader_decrypt_flow (meta : CtMeta) (pid mid : Int) (sender : String)
    (slices : List CtSlice) (sliceId : Int)
    (dec : CtSlice → PyResult) : FlowResult :=
  if meta.pid == pid && meta.mid == mid && meta.sender == sender then
    match slices with
    | [s] => ⟨[s], dec s⟩
    | _ :: _ :: _ =>
        match slices.find? (fun r => r.slice_id == sliceId) with
        | some s => ⟨[s], dec s⟩
        | none => ⟨[], .raised decryptionErrorMsg⟩
    | [] => ⟨[], .raised decryptionErrorMsg⟩
  else
    ⟨[], .raised decryptionErrorMsg⟩

/-- C6: when the ciphertext's (sender, processInstance, messageId)
metadata do not all match exactly, or the requested slice id is not found
among multiple slices, `reader.start` fails hard with an error and
`actual_decryption` is never invoked, so no partial output file is
written. -/
theorem reader_rejects_mismatch_without_output (meta : CtMeta)
    (pid mid : Int) (sender : String) (slices : List CtSlice) (sliceId : Int)
    (dec : CtSlice → PyResult)
    (h : (meta.pid == pid && meta.mid == mid && meta.sender == sender) = false
        ∨ (2 ≤ slices.length ∧
            slices.find? (fun r => r.slice_id == sliceId) = none)) :
    reader_decrypt_flow meta pid mid sender slices sliceId dec =
      ⟨[], .raised decryptionErrorMsg⟩ := by
  unfold reader_decrypt_flow
  rcases h with hm | ⟨hlen, hfind⟩
  · simp [hm]
  · by_cases hmeta :
      (meta.pid == pid && meta.mid == mid && meta.sender == sender) = true
    · rw [if_pos hmeta]
      match slices, hlen with
      | _ :: _ :: _, _ => rw [hfind]
    · simp [hmeta]

/-- C6 (witness): a message-id mismatch, and separately a missing slice id
among two slices, both yield the hard error with no decryption attempted. -/
theorem reader_rejects_mismatch_without_output_witness :
    reader_decrypt_flow ⟨1, 2, "alice"⟩ 1 3 "alice"
        [⟨1, "x"⟩] 1 (fun _ => .ok) =
      ⟨[], .raised decryptionErrorMsg⟩ ∧
    reader_decrypt_flow ⟨1, 2, "alice"⟩ 1 2 "alice"
        [⟨1, "x"⟩, ⟨2, "y"⟩] 5 (fun _ => .ok) =
      ⟨[], .raised decryptionErrorMsg⟩ :=
  ⟨reader_rejects_mismatch_without_output ⟨1, 2, "alice"⟩ 1 3 "alice"
      [⟨1, "x"⟩] 1 (fun _ => .ok) (Or.inl (by decide)),
    reader_rejects_mismatch_without_output ⟨1, 2, "alice"⟩ 1 2 "alice"
      [⟨1, "x"⟩, ⟨2, "y"⟩] 5 (fun _ => .ok)
      (Or.inr ⟨by decide, by decide⟩)⟩

section MergeDicts

variable {K V : Type} [DecidableEq K]

/-- Python dict lookup on an insertion-ordered association list (keys are
unique in a Python dict, so first match suffices). -/
def dict_get : List (K × V) → K → Option V
  | [], _ => none
  | (k0, v0) :: rest, k => if k = k0 then some v0 else dict_get rest k

/-- Python dict assignment `d[k] = v`: an existing key keeps its position
and gets the new value, a new key is appended. -/
def dict_set : List (K × V) → K → V → List (K × V)
  | [], k, v => [(k, v)]
  | (k0, v0) :: rest, k, v =>
      if k0 = k then (k, v) :: rest else (k0, v0) :: dict_set rest k v

/-- Python `result.update(src)`: assign every (key, value) of `src` into
the accumulator, in order. -/
def dict_update (d src : List (K × V)) : List (K × V) :=
  src.foldl (fun acc kv => dict_set acc kv.1 kv.2) d

/-- Embeds `reader.merge_dicts` (reader.py lines 24-31): start from an
empty dict and `update` with each argument in turn, precedence to latter
dictionaries.  It is a total function: no collision error is ever
raised. -/
def merge_dicts (ds : List (List (K × V))) : List (K × V) :=
  ds.foldl dict_update []

theorem dict_get_dict_set (d : List (K × V)) (k : K) (v : V) (q : K) :
    dict_get (dict_set d k v) q = if q = k then some v else dict_get d q := by
  induction d with
  | nil => simp [dict_set, dict_get]
  | cons kv rest ih =>
      obtain ⟨k0, v0⟩ := kv
      by_cases h0 : k0 = k
      · subst h0
        by_cases hq : q = k0 <;> simp [dict_set, dict_get, hq]
      · by_cases hq : q = k0
        · subst hq
          simp [dict_set, dict_get, h0]
        · simp [dict_set, dict_get, h0, hq, ih]

theorem dict_get_eq_none_of_not_mem (d : List (K × V)) (k : K)
    (h : k ∉ d.map Prod.fst) : dict_get d k = none := by
  induction d with
  | nil => rfl
  | cons kv rest ih =>
      simp only [List.map_cons, List.mem_cons] at h
      push_neg at h
      simpa [dict_get, h.1] using ih h.2

theorem dict_get_dict_update (src : List (K × V))
    (hsrc : (src.map Prod.fst).Nodup) (d : List (K × V)) (q : K) :
    dict_get (dict_update d src) q =
      match dict_get src q with
      | some v => some v
      | none => dict_get d q := by
  induction src generalizing d with
  | nil => rfl
  | cons kv rest ih =>
      obtain ⟨k0, v0⟩ := kv
      simp only [List.map_cons, List.nodup_cons] at hsrc
      have hupd : dict_update d ((k0, v0) :: rest) =
          dict_update (dict_set d k0 v0) rest := rfl
      rw [hupd, ih hsrc.2]
      by_cases hq : q = k0
      · subst hq
        have hrest : dict_get rest q = none :=
          dict_get_eq_none_of_not_mem rest q hsrc.1
        simp [dict_get, hrest, dict_get_dict_set]
      · simp only [dict_get, if_neg hq]
        cases dict_get rest q <;> simp [dict_get_dict_set, hq]

/-- C7: inserting received key fragments via `merge_dicts` is
last-write-wins — for a key present in the later dictionary the prior
value is overwritten, for keys not present in the later dictionary the
earlier entries are unchanged — and no collision error is raised
(`merge_dicts` is total). -/
theorem merge_dicts_last_write_wins (d1 d2 : List (K × V))
    (h1 : (d1.map Prod.fst).Nodup) (h2 : (d2.map Prod.fst).Nodup) (q : K) :
    dict_get (merge_dicts [d1, d2]) q =
      match dict_get d2 q with
      | some v => some v
      | none => dict_get d1 q := by
  have hm : merge_dicts [d1, d2] = dict_update (dict_update [] d1) d2 := rfl
  rw [hm, dict_get_dict_update d2 h2, dict_get_dict_update d1 h1]
  cases dict_get d2 q <;> cases dict_get d1 q <;> simp [dict_get]

end MergeDicts

/-- C7 (witness): merging `{1 ↦ 10, 2 ↦ 20}` with `{2 ↦ 99, 3 ↦ 30}`
overwrites key 2 with 99 and keeps key 1 at 10. -/
theorem merge_dicts_last_write_wins_witness :
    dict_get (merge_dicts [[(1, 10), (2, 20)], [(2, 99), (3, 30)]]) 2 =
      some (99 : Nat) ∧
    dict_get (merge_dicts [[(1, 10), (2, 20)], [(2, 99), (3, 30)]]) 1 =
      some (10 : Nat) :=
  ⟨(merge_dicts_last_write_wins [(1, 10), (2, 20)] [(2, 99), (3, 30)]
      (by decide) (by decide) 2).trans (by decide),
    (merge_dicts_last_write_wins [(1, 10), (2, 20)] [(2, 99), (3, 30)]
      (by decide) (by decide) 1).trans (by decide)⟩

/-! ## Authority coordinator (src/authority.py) -/

/-- The per-authority ledger view read by
`Authority.generate_public_parameters` (authority.py lines 69-80): the
hashed commitment pair and the revealed element pair.  A `none` field
models the `void_bytes` filler (the 90 zero bytes an unset contract slot
decodes to); a `some` element is already deserialized (hashes as strings,
group elements as naturals, as in `generateParameters`). -/
structure LedgerEntry where
  hashed1 : Option String
  hashed2 : Option String
  elem1 : Option Nat
  elem2 : Option Nat
deriving DecidableEq, Repr

/-- The loop of `Authority.generate_public_parameters` (authority.py
lines 68-80): walk the authorities in order, and return `none` as soon as
a hashed pair or an element pair contains `void_bytes`; otherwise collect
the four lists `hashes1, hashes2, com1, com2` in ledger order. -/
def collectEntries :
    List LedgerEntry →
      Option (List String × List String × List Nat × List Nat)
  | [] => some ([], [], [], [])
  | e :: rest =>
    match e.hashed1, e.hashed2 with
    | some h1, some h2 =>
      match e.elem1, e.elem2 with
      | some g1, some g2 =>
        match collectEntries rest with
        | some (hs1, hs2, c1, c2) =>
            some (h1 :: hs1, h2 :: hs2, g1 :: c1, g2 :: c2)
        | none => none
      | _, _ => none
    | _, _ => none

/-- Observable outcome of one `Authority.generate_public_parameters` call
(authority.py lines 62-91): the returned boolean, whether the
`public_parameters` row was inserted into the authority database, whether
the parameters link was published to the ledger, and the aggregated pair
fed to `maabe.setup` (the setup itself is external). -/
structure GenPPOutcome where
  success : Bool
  wroteDb : Bool
  published : Bool
  params : Option (Nat × Nat)
deriving DecidableEq, Repr

/-- Embeds `Authority.generate_public_parameters`: on any missing ledger
entry it returns `False` before computing, writing, or publishing
anything; once all entries are present it aggregates via
`generateParameters`, stores the result, and publishes the link. -/
def generate_public_parameters (entries : List LedgerEntry) : GenPPOutcome :=
  match collectEntries entries with
  | none => ⟨false, false, false, none⟩
  | some (hs1, hs2, c1, c2) =>
      ⟨true, true, true, generateParameters hs1 hs2 c1 c2⟩

/-- Embeds the retry loop of `authority.main` (authority.py lines 169-173):
`while not authority.generate_public_parameters(...): retry_count += 1;
time.sleep(5)`.  `gen k` is the outcome of the k-th call; the loop has no
cap, so the embedding adds explicit fuel and `none` marks a run the fuel
cannot finish.  On success it returns the final retry counter. -/
def authority_param_loop (gen : Nat → Bool) : Nat → Nat → Option Nat
  | 0, _ => none
  | fuel + 1, retryCount =>
      if gen retryCount then some retryCount
      else authority_param_loop gen fuel (retryCount + 1)

/-- C8: with any authority's hashed commitments or revealed elements still
void on the ledger, `generate_public_parameters` returns `False` without
writing public parameters to the database or publishing a parameters
link; the caller's loop then retries after a fixed sleep, incrementing
the retry counter, and no amount of fuel terminates it while the call
keeps failing (no hard cap). -/
theorem missing_entries_return_false_and_retry (entries : List LedgerEntry)
    (h : ∃ e ∈ entries,
        e.hashed1 = none ∨ e.hashed2 = none ∨
        e.elem1 = none ∨ e.elem2 = none) :
    generate_public_parameters entries = ⟨false, false, false, none⟩ ∧
    (∀ gen : Nat → Bool, ∀ fuel rc : Nat, gen rc = false →
        authority_param_loop gen (fuel + 1) rc =
          authority_param_loop gen fuel (rc + 1)) ∧
    (∀ fuel rc : Nat, authority_param_loop (fun _ => false) fuel rc = none) := by
  refine ⟨?_, ?_, ?_⟩
  · have hnone : collectEntries entries = none := by
      induction entries with
      | nil => simp at h
      | cons e rest ih =>
          rcases h with ⟨x, hx, hmiss⟩
          rcases List.mem_cons.mp hx with hhead | htail
          · subst hhead
            unfold collectEntries
            cases hx1 : x.hashed1 <;> cases hx2 : x.hashed2 <;>
              cases hx3 : x.elem1 <;> cases hx4 : x.elem2 <;> simp_all
          · have hrest := ih ⟨x, htail, hmiss⟩
            unfold collectEntries
            rw [hrest]
            cases e.hashed1 <;> cases e.hashed2 <;>
              cases e.elem1 <;> cases e.elem2 <;> rfl
    unfold generate_public_parameters
    rw [hnone]
  · intro gen fuel rc hfail
    simp [authority_param_loop, hfail]
  · intro fuel
    induction fuel with
    | zero => intro rc; rfl
    | succ n ih => intro rc; simpa [authority_param_loop] using ih (rc + 1)

/-- C8 (witness): with authority 2's revealed elements still void, the
call fails with no write and no publication, the loop keeps retrying with
an incremented counter, and a permanently failing call exhausts any fuel. -/
theorem missing_entries_return_false_and_retry_witness :
    generate_public_parameters
        [⟨some "a", some "b", some 3, some 4⟩,
          ⟨some "c", some "d", none, none⟩] =
      ⟨false, false, false, none⟩ ∧
    authority_param_loop (fun _ => false) 1 0 =
      authority_param_loop (fun _ => false) 0 1 ∧
    authority_param_loop (fun _ => false) 5 0 = none := by
  have h := missing_entries_return_false_and_retry
    [⟨some "a", some "b", some 3, some 4⟩, ⟨some "c", some "d", none, none⟩]
    ⟨⟨some "c", some "d", none, none⟩, by decide, by decide⟩
  exact ⟨h.1, h.2.1 (fun _ => false) 0 0 rfl, h.2.2 5 0⟩
